import Mathlib

/-!
Shallow embedding of the Recoll MCP server tool-dispatch layer
(`recoll_mcp_server.py`), covering the result normalizer
(`format_doc_result`), the query builders, the per-operation handlers and
the dispatcher (`handle_call_tool`).  Python `str` values are modelled as
Lean `String` (character-level slicing is modelled on the `data` list),
dynamic Python values appearing in tool arguments as the `PyVal` sum,
exceptions as `Except String`, the external Recoll engine as an explicit
`Engine` record, and the filesystem as a function from path to
`Except String String`.
-/

/-- Dynamic Python value as it appears in a tool-call argument object:
the schemas of this server only use strings, integers and booleans. -/
inductive PyVal where
  | str (s : String)
  | int (n : Int)
  | bool (b : Bool)
deriving DecidableEq, Repr

/-- Python truthiness for the modelled values: a string is truthy iff
nonempty, an integer iff nonzero, a boolean iff `true`. -/
def PyVal.truthy : PyVal → Bool
  | .str s => !s.data.isEmpty
  | .int n => n != 0
  | .bool b => b

/-- Python `str(v)` as used by f-string interpolation of an argument value. -/
def PyVal.toStr : PyVal → String
  | .str s => s
  | .int n => toString n
  | .bool b => if b then "True" else "False"

/-- Argument object of a tool call: a finite string-keyed map, modelled as
an association list (Python dicts have unique keys; lookup takes the first
binding). -/
def Args : Type := List (String × PyVal)

/-- Dict lookup returning `none` when the key is absent:
models `arguments.get(k)`. -/
def Args.get? (a : Args) (k : String) : Option PyVal :=
  (List.find? (fun p => p.1 == k) a).map (fun p => p.2)

/-- Dict lookup with default: models `arguments.get(k, d)`. -/
def Args.getD (a : Args) (k : String) (d : PyVal) : PyVal :=
  (a.get? k).getD d

/-- Subscript lookup `arguments[k]`: a missing key raises `KeyError`,
which the dispatcher catch-all turns into an error response. -/
def Args.getReq (a : Args) (k : String) : Except String PyVal :=
  match a.get? k with
  | some v => Except.ok v
  | none => Except.error ("KeyError: " ++ k)

/-- Raw hit object as surfaced by the Recoll Python API: the fields read
by `format_doc_result`.  `abstract` is an optional duck-typed attribute
(`hasattr(doc, "abstract")`), hence `Option`; the other fields are the
engine native strings (`fbytes` and `mtime` are strings in the API). -/
structure RawDoc where
  filename : String
  url : String
  mimetype : String
  fbytes : String
  mtime : String
  abstract : Option String
deriving DecidableEq, Repr

/-- Normalized result record built by `format_doc_result`: the dict with
keys filename, url, mimetype, size, mtime, mtime_readable and the optional
preview key. -/
structure DocResult where
  filename : String
  url : String
  mimetype : String
  size : String
  mtime : String
  mtime_readable : String
  preview : Option String
deriving DecidableEq, Repr

/-- Python character slice `s[:n]`: the first `n` characters of `s`. -/
def pyTake (s : String) (n : Nat) : String := ⟨s.data.take n⟩

/-- Python character slice `s[n:]`: drop the first `n` characters of `s`. -/
def pyDrop (s : String) (n : Nat) : String := ⟨s.data.drop n⟩

/-- Preview truncation used at `doc.abstract[:300]`: a prefix cut of the
first 300 characters. -/
def truncPreview (s : String) : String := pyTake s 300

/-- ASCII decimal digit (code points 48 to 57). -/
def isDigitChar (c : Char) : Bool :=
  decide (48 ≤ c.toNat) && decide (c.toNat ≤ 57)

/-- ASCII whitespace stripped by CPython `int()` around a numeric literal
(space, tab, newline, carriage return, vertical tab, form feed). -/
def isPySpace (c : Char) : Bool :=
  decide (c.toNat = 32) || decide (c.toNat = 9) || decide (c.toNat = 10) ||
    decide (c.toNat = 13) || decide (c.toNat = 11) || decide (c.toNat = 12)

/-- ASCII letter (used to state raise-direction facts: a letter is never
a digit, a sign, an underscore or whitespace, in Unicode as in ASCII). -/
def isAsciiLetter (c : Char) : Bool :=
  (decide (65 ≤ c.toNat) && decide (c.toNat ≤ 90)) ||
    (decide (97 ≤ c.toNat) && decide (c.toNat ≤ 122))

/-- Digit run continuation after at least one digit was consumed: accepts
further digits with single underscores allowed only between two digits,
per the CPython numeric-literal grammar. -/
def digitsRest : List Char → Nat → Option Nat
  | [], acc => some acc
  | c :: cs, acc =>
    if c.toNat = 95 then
      match cs with
      | [] => none
      | c2 :: cs2 =>
        if isDigitChar c2 then digitsRest cs2 (acc * 10 + (c2.toNat - 48)) else none
    else if isDigitChar c then digitsRest cs (acc * 10 + (c.toNat - 48)) else none

/-- Unsigned digit part of a CPython integer literal: at least one digit,
then `digitsRest`. -/
def pyIntDigits : List Char → Option Nat
  | [] => none
  | c :: cs => if isDigitChar c then digitsRest cs (c.toNat - 48) else none

/-- Surrounding-whitespace strip performed by CPython `int()`. -/
def stripPySpace (l : List Char) : List Char :=
  ((l.dropWhile isPySpace).reverse.dropWhile isPySpace).reverse

/-- Sign-and-digits part of a CPython integer literal, applied after the
whitespace strip: an optional `+` or `-` sign, then at least one digit. -/
def pyIntCore : List Char → Option Int
  | [] => none
  | c :: cs =>
    if c.toNat = 45 then Option.map (fun n => -(Int.ofNat n)) (pyIntDigits cs)
    else if c.toNat = 43 then Option.map Int.ofNat (pyIntDigits cs)
    else Option.map Int.ofNat (pyIntDigits (c :: cs))

/-- Python `int(s)` on its ASCII core: surrounding ASCII whitespace is
stripped, then an optional `+` or `-` sign, then at least one ASCII digit
with single underscores allowed between digits; anything else fails.
CPython additionally accepts non-ASCII decimal digits and non-ASCII
whitespace; those are not modelled, and no theorem below relies on
`pyInt` failing on such inputs. -/
def pyInt (s : String) : Option Int := pyIntCore (stripPySpace s.data)

/-- Gregorian civil date from a day count relative to 1970-01-01
(standard era-based conversion, used to model
`datetime.fromtimestamp(..)`): year, month, day. -/
def civilFromDays (z0 : Int) : Int × Nat × Nat :=
  let z := z0 + 719468
  let era := Int.fdiv z 146097
  let doe := (z - era * 146097).toNat
  let yoe := (doe - doe / 1460 + doe / 36524 - doe / 146096) / 365
  let y := (yoe : Int) + era * 400
  let doy := doe - (365 * yoe + yoe / 4 - yoe / 100)
  let mp := (5 * doy + 2) / 153
  let d := doy - (153 * mp + 2) / 5 + 1
  let m := if mp < 10 then mp + 3 else mp - 9
  (if m ≤ 2 then y + 1 else y, m, d)

/-- Two-digit zero padding as produced by `strftime` fields. -/
def pad2 (n : Nat) : String := if n < 10 then "0" ++ toString n else toString n

/-- Model of
`datetime.fromtimestamp(t).strftime("%Y-%m-%d %H:%M:%S")`: epoch seconds
to a readable timestamp.  Rendered in UTC and total over `Int` (the local
timezone and the platform range limits of `fromtimestamp` are environment
details outside the model; no claim depends on the rendered digits). -/
def epochReadable (t : Int) : String :=
  let days := Int.fdiv t 86400
  let secs := (t - days * 86400).toNat
  let c := civilFromDays days
  toString c.1 ++ "-" ++ pad2 c.2.1 ++ "-" ++ pad2 c.2.2 ++ " " ++
    pad2 (secs / 3600) ++ ":" ++ pad2 (secs % 3600 / 60) ++ ":" ++ pad2 (secs % 60)

/-- Range guard of `datetime.fromtimestamp`: the conversion raises a
`ValueError` unless the resulting year lies in 1..9999.  Modelled with
the UTC cutoffs (0001-01-01T00:00:00Z and 9999-12-31T23:59:59Z as epoch
seconds).  The exact cutoffs shift by the local utc offset of the host,
at most a day in either direction, so every theorem below invokes this
guard only for epochs at least two days inside or outside the cutoffs. -/
def fromtimestampOk (t : Int) : Bool :=
  decide (-62135596800 ≤ t) && decide (t ≤ 253402300799)

/-- Model of `format_doc_result(doc, include_preview)`.  Building the
result dict evaluates
`datetime.fromtimestamp(int(doc.mtime[1:])).strftime(..)`, which raises
on a token whose tail is not a decimal integer and also on a decodable
epoch value outside the year 1..9999 range of `fromtimestamp`; either
exception propagates to the caller, hence `Except`.  On success the dict
is built, and the preview key is added exactly when `include_preview` is
truthy and the hit has an `abstract` attribute, truncated to its first
300 characters. -/
def format_doc_result (doc : RawDoc) (include_preview : Bool) : Except String DocResult :=
  match pyInt (pyDrop doc.mtime 1) with
  | none => Except.error ("invalid literal for int: " ++ doc.mtime)
  | some t =>
    if fromtimestampOk t then
      let base : DocResult :=
        { filename := doc.filename
          url := doc.url
          mimetype := doc.mimetype
          size := doc.fbytes
          mtime := doc.mtime
          mtime_readable := epochReadable t
          preview := none }
      Except.ok
        (if include_preview then
          match doc.abstract with
          | some a => { base with preview := some (truncPreview a) }
          | none => base
        else base)
    else Except.error ("timestamp out of range: " ++ doc.mtime)

example : epochReadable 100 = "1970-01-01 00:01:40" := by decide
example : format_doc_result ⟨"f", "u", "m", "0", "Qxy", none⟩ true
    = Except.error "invalid literal for int: Qxy" := rfl

/-- External Recoll engine as consumed through a per-invocation query
handle: `execRes expr` models `db.query().execute(expr)` (total result
count, or an execution failure), and `hits expr` is the stream of hits the
cursor can actually deliver for that expression before reporting
exhaustion (which may be shorter than the reported count). -/
structure Engine where
  execRes : String → Except String Nat
  hits : String → List RawDoc

/-- Fetch loop body shared by every search-family handler:
`for i in range(k): doc = query.fetchone(); results.append(format_doc_result(doc, ip))`.
A fetch past the end of the deliverable stream surfaces as an exception
(`fetch exhausted` stands for the message of the exception the binding
raises at exhaustion), as does a normalization failure; either aborts the
loop and propagates to the dispatcher catch-all. -/
def fetchLoop (ip : Bool) : Nat → List RawDoc → Except String (List DocResult)
  | 0, _ => Except.ok []
  | Nat.succ _, [] => Except.error "fetch exhausted"
  | Nat.succ n, d :: ds =>
    match format_doc_result d ip with
    | Except.error e => Except.error e
    | Except.ok r =>
      match fetchLoop ip n ds with
      | Except.error e => Except.error e
      | Except.ok rs => Except.ok (r :: rs)

/-- Number of loop iterations `range(min(max_results, nres))`: Python
`min` of the argument value and the engine count, empty range when
negative. -/
def loopCount (maxr : Int) (nres : Nat) : Nat := (min maxr (Int.ofNat nres)).toNat

/-- Coercion of the `max_results` argument at its use
`min(max_results, nres)`: an int compares as itself, a bool as 0 or 1,
comparing a str against an int raises `TypeError`. -/
def asMinInt : PyVal → Except String Int
  | PyVal.int n => Except.ok n
  | PyVal.bool b => Except.ok (if b then 1 else 0)
  | PyVal.str _ => Except.error "TypeError: str and int are not comparable"

/-- Coercion of a value required to be a Python `str` at a use site that
raises on any other type (engine `execute`, `str + str` concatenation,
`url.startswith`). -/
def asStr : PyVal → Except String String
  | PyVal.str s => Except.ok s
  | PyVal.int _ => Except.error "TypeError: expected str, got int"
  | PyVal.bool _ => Except.error "TypeError: expected str, got bool"

/-- One response content item.  Each constructor stands for one
`TextContent` whose text is, for the non-`text` constructors, the indented
`json.dumps` of the corresponding response dict: `search` carries the
query/total_results/returned_results/results keys, `recent` the
days/total_results/returned_results/results keys, and `content` the
url/filepath/content/truncated keys of the ContentEnvelope. -/
inductive ToolResponse where
  | text (s : String)
  | search (query : String) (total : Nat) (returned : Nat) (results : List DocResult)
  | recent (days : PyVal) (total : Nat) (returned : Nat) (results : List DocResult)
  | content (url : String) (filepath : String) (body : String) (truncated : Bool)
deriving DecidableEq, Repr

/-- Date filter construction of the `search_by_date` handler: the
`if start_date and end_date / elif start_date / elif end_date / else`
chain over the raw optional argument values, using Python truthiness and
f-string interpolation. -/
def dateFilter (sd ed : Option PyVal) : String :=
  match sd.bind (fun v => if v.truthy then some v else none),
        ed.bind (fun v => if v.truthy then some v else none) with
  | some s, some e => " date:" ++ s.toStr ++ "/" ++ e.toStr
  | some s, none => " date:" ++ s.toStr ++ "/"
  | none, some e => " date:/" ++ e.toStr
  | none, none => ""

/-- Python `s.startswith(pre)`: character-level prefix test. -/
def pyStartsWith (s pre : String) : Bool := pre.data.isPrefixOf s.data

/-- Path extraction of the `get_document_content` handler: strip a
literal `file://` prefix when present, otherwise use the value verbatim. -/
def stripFileUrl (url : String) : String :=
  if pyStartsWith url "file://" then pyDrop url 7 else url

/-- Handler for `search_filesystem` (body of its branch inside the
dispatcher `try` block): any raised step short-circuits to the catch-all. -/
def searchFilesystem (e : Engine) (args : Args) : Except String ToolResponse :=
  match args.getReq "query" with
  | Except.error m => Except.error m
  | Except.ok qv =>
    match asStr qv with
    | Except.error m => Except.error m
    | Except.ok query_str =>
      match e.execRes query_str with
      | Except.error m => Except.error m
      | Except.ok nres =>
        match asMinInt (args.getD "max_results" (PyVal.int 20)) with
        | Except.error m => Except.error m
        | Except.ok maxr =>
          match fetchLoop (args.getD "include_preview" (PyVal.bool true)).truthy
              (loopCount maxr nres) (e.hits query_str) with
          | Except.error m => Except.error m
          | Except.ok rs => Except.ok (ToolResponse.search query_str nres rs.length rs)

/-- Handler for `search_by_date`: builds the date filter from the raw
optional arguments, concatenates it to the query string, and normalizes
with the default `include_preview=True` of `format_doc_result`. -/
def searchByDate (e : Engine) (args : Args) : Except String ToolResponse :=
  match args.getReq "query" with
  | Except.error m => Except.error m
  | Except.ok qv =>
    match asStr qv with
    | Except.error m => Except.error m
    | Except.ok query_str =>
      match e.execRes (query_str ++ dateFilter (args.get? "start_date") (args.get? "end_date")) with
      | Except.error m => Except.error m
      | Except.ok nres =>
        match asMinInt (args.getD "max_results" (PyVal.int 20)) with
        | Except.error m => Except.error m
        | Except.ok maxr =>
          match fetchLoop true (loopCount maxr nres)
              (e.hits (query_str ++ dateFilter (args.get? "start_date") (args.get? "end_date"))) with
          | Except.error m => Except.error m
          | Except.ok rs =>
            Except.ok (ToolResponse.search
              (query_str ++ dateFilter (args.get? "start_date") (args.get? "end_date"))
              nres rs.length rs)

/-- Handler for `search_by_filetype`: the f-string
`f"{query_str} mime:{filetype}"` accepts any argument value, and
normalization again uses the default `include_preview=True`. -/
def searchByFiletype (e : Engine) (args : Args) : Except String ToolResponse :=
  match args.getReq "query" with
  | Except.error m => Except.error m
  | Except.ok qv =>
    match args.getReq "filetype" with
    | Except.error m => Except.error m
    | Except.ok ftv =>
      match e.execRes (qv.toStr ++ " mime:" ++ ftv.toStr) with
      | Except.error m => Except.error m
      | Except.ok nres =>
        match asMinInt (args.getD "max_results" (PyVal.int 20)) with
        | Except.error m => Except.error m
        | Except.ok maxr =>
          match fetchLoop true (loopCount maxr nres) (e.hits (qv.toStr ++ " mime:" ++ ftv.toStr)) with
          | Except.error m => Except.error m
          | Except.ok rs =>
            Except.ok (ToolResponse.search (qv.toStr ++ " mime:" ++ ftv.toStr) nres rs.length rs)

/-- Handler for `get_document_content` over a filesystem modelled as
path to decoded-content-or-OS-error.  A read failure is caught by the
inner `try` of the handler and reported as an ordinary text item; the handler
never consults the engine. -/
def getDocumentContent (fs : String → Except String String) (args : Args) :
    Except String ToolResponse :=
  match args.getReq "url" with
  | Except.error m => Except.error m
  | Except.ok uv =>
    match asStr uv with
    | Except.error m => Except.error m
    | Except.ok url =>
      match fs (stripFileUrl url) with
      | Except.error msg => Except.ok (ToolResponse.text ("Error reading file: " ++ msg))
      | Except.ok content =>
        Except.ok (ToolResponse.content url (stripFileUrl url) (pyTake content 10000)
          (decide (10000 < content.length)))

/-- Handler for `list_recent_files`: expression `f"date:{days}d/"` with no
free-text component, normalization with the default
`include_preview=True`. -/
def listRecentFiles (e : Engine) (args : Args) : Except String ToolResponse :=
  match e.execRes ("date:" ++ (args.getD "days" (PyVal.int 7)).toStr ++ "d/") with
  | Except.error m => Except.error m
  | Except.ok nres =>
    match asMinInt (args.getD "max_results" (PyVal.int 20)) with
    | Except.error m => Except.error m
    | Except.ok maxr =>
      match fetchLoop true (loopCount maxr nres)
          (e.hits ("date:" ++ (args.getD "days" (PyVal.int 7)).toStr ++ "d/")) with
      | Except.error m => Except.error m
      | Except.ok rs =>
        Except.ok (ToolResponse.recent (args.getD "days" (PyVal.int 7)) nres rs.length rs)

/-- Dispatch on the operation name: the `if/elif` chain inside the
`try` of `handle_call_tool`, ending in the unknown-tool text. -/
def dispatch (e : Engine) (fs : String → Except String String)
    (name : String) (args : Args) : Except String ToolResponse :=
  if name = "search_filesystem" then searchFilesystem e args
  else if name = "search_by_date" then searchByDate e args
  else if name = "search_by_filetype" then searchByFiletype e args
  else if name = "get_document_content" then getDocumentContent fs args
  else if name = "list_recent_files" then listRecentFiles e args
  else Except.ok (ToolResponse.text ("Unknown tool: " ++ name))

/-- Process-level state the dispatcher closes over: the optional global
Recoll connection (`db`, `None` when `recoll.connect()` failed at
startup) and the filesystem reachable by the process. -/
structure ServerState where
  db : Option Engine
  fs : String → Except String String

/-- Fixed error text returned whenever the connection was never
established. -/
def unavailableText : String :=
  "Error: Recoll database not available. Check configuration."

/-- Model of `handle_call_tool(name, arguments)`: the `db is None` guard
runs before any dispatch; otherwise the handler chain runs inside a
catch-all `except` that turns any exception into the
`Error executing search:` text.  Every path returns exactly one content
item. -/
def handle_call_tool (st : ServerState) (name : String) (args : Args) :
    List ToolResponse :=
  match st.db with
  | none => [ToolResponse.text unavailableText]
  | some e =>
    match dispatch e st.fs name args with
    | Except.ok r => [r]
    | Except.error msg => [ToolResponse.text ("Error executing search: " ++ msg)]

/-! Helper lemmas. -/

theorem string_append_nil (s : String) : s ++ "" = s := by
  cases s with
  | mk data =>
    show String.mk (data ++ []) = String.mk data
    rw [List.append_nil]

/-- Success predicate of normalization: the mtime tail decodes and the
epoch lies in the `fromtimestamp` range. -/
def mtimeOk (d : RawDoc) : Bool :=
  match pyInt (pyDrop d.mtime 1) with
  | some t => fromtimestampOk t
  | none => false

/-- Timezone-robust success predicate: the mtime tail decodes to an epoch
at least two days inside the year 1..9999 cutoffs, so normalization
succeeds under any local utc offset of the host. -/
def mtimeSafe (d : RawDoc) : Bool :=
  match pyInt (pyDrop d.mtime 1) with
  | some t => decide (-62135424000 ≤ t) && decide (t ≤ 253402127999)
  | none => false

theorem mtimeOk_of_safe (d : RawDoc) (h : mtimeSafe d = true) : mtimeOk d = true := by
  unfold mtimeSafe at h
  cases hp : pyInt (pyDrop d.mtime 1) with
  | none => simp only [hp] at h; exact Bool.noConfusion h
  | some t =>
    simp only [hp] at h
    unfold mtimeOk
    simp only [hp]
    simp only [Bool.and_eq_true, decide_eq_true_eq] at h
    simp only [fromtimestampOk, Bool.and_eq_true, decide_eq_true_eq]
    omega

theorem format_ok_of_mtimeOk (d : RawDoc) (ip : Bool) (h : mtimeOk d = true) :
    ∃ r, format_doc_result d ip = Except.ok r := by
  unfold mtimeOk at h
  cases hp : pyInt (pyDrop d.mtime 1) with
  | none => simp only [hp] at h; exact Bool.noConfusion h
  | some t =>
    simp only [hp] at h
    unfold format_doc_result
    simp only [hp]
    rw [if_pos h]
    exact ⟨_, rfl⟩

theorem format_error_of_no_parse (d : RawDoc) (ip : Bool)
    (h : pyInt (pyDrop d.mtime 1) = none) :
    format_doc_result d ip = Except.error ("invalid literal for int: " ++ d.mtime) := by
  unfold format_doc_result
  rw [h]

theorem format_preview_true (d : RawDoc) (r : DocResult)
    (h : format_doc_result d true = Except.ok r) :
    r.preview = d.abstract.map truncPreview := by
  unfold format_doc_result at h
  cases hp : pyInt (pyDrop d.mtime 1) with
  | none => simp only [hp] at h; exact Except.noConfusion h
  | some t =>
    simp only [hp] at h
    cases hfr : fromtimestampOk t with
    | false => rw [hfr] at h; simp at h
    | true =>
      rw [hfr] at h
      simp only [if_pos] at h
      cases ha : d.abstract with
      | none =>
        rw [ha] at h
        cases h
        rfl
      | some a =>
        rw [ha] at h
        cases h
        rfl

theorem fetchLoop_ok_of_enough (ip : Bool) :
    ∀ (k : Nat) (hits : List RawDoc),
      (∀ d ∈ hits, mtimeOk d = true) → k ≤ hits.length →
      ∃ rs, fetchLoop ip k hits = Except.ok rs ∧ rs.length = k := by
  intro k
  induction k with
  | zero => intro hits _ _; exact ⟨[], rfl, rfl⟩
  | succ n ih =>
    intro hits hok hlen
    cases hits with
    | nil => simp at hlen
    | cons d ds =>
      obtain ⟨r, hr⟩ := format_ok_of_mtimeOk d ip (hok d (List.mem_cons_self d ds))
      obtain ⟨rs, hrs, hlen2⟩ := ih ds (fun x hx => hok x (List.mem_cons_of_mem d hx))
        (Nat.le_of_succ_le_succ hlen)
      refine ⟨r :: rs, ?_, by simp [hlen2]⟩
      unfold fetchLoop
      rw [hr, hrs]

theorem fetchLoop_exhausts (ip : Bool) :
    ∀ (k : Nat) (hits : List RawDoc),
      (∀ d ∈ hits, mtimeOk d = true) → hits.length < k →
      fetchLoop ip k hits = Except.error "fetch exhausted" := by
  intro k
  induction k with
  | zero => intro hits _ h; simp at h
  | succ n ih =>
    intro hits hok hlen
    cases hits with
    | nil => rfl
    | cons d ds =>
      obtain ⟨r, hr⟩ := format_ok_of_mtimeOk d ip (hok d (List.mem_cons_self d ds))
      have hrec := ih ds (fun x hx => hok x (List.mem_cons_of_mem d hx))
        (Nat.lt_of_succ_lt_succ hlen)
      unfold fetchLoop
      rw [hr, hrec]

theorem fetchLoop_preview_true :
    ∀ (k : Nat) (hits : List RawDoc) (rs : List DocResult),
      fetchLoop true k hits = Except.ok rs →
      ∀ (i : Nat) (h1 : i < rs.length) (h2 : i < hits.length),
        (rs.get ⟨i, h1⟩).preview
          = ((hits.get ⟨i, h2⟩).abstract.map truncPreview) := by
  intro k
  induction k with
  | zero =>
    intro hits rs h i h1 h2
    cases h
    simp at h1
  | succ n ih =>
    intro hits rs h i h1 h2
    cases hits with
    | nil => exact absurd h (by simp [fetchLoop])
    | cons d ds =>
      unfold fetchLoop at h
      cases hf : format_doc_result d true with
      | error e => rw [hf] at h; exact absurd h (by simp)
      | ok r =>
        rw [hf] at h
        cases hrec : fetchLoop true n ds with
        | error e => rw [hrec] at h; exact absurd h (by simp)
        | ok rs2 =>
          rw [hrec] at h
          cases h
          cases i with
          | zero => exact format_preview_true d r hf
          | succ j =>
            exact ih ds rs2 hrec j (Nat.lt_of_succ_lt_succ h1)
              (Nat.lt_of_succ_lt_succ h2)

theorem loopCount_ofNat (m n : Nat) : loopCount (Int.ofNat m) n = min m n := by
  unfold loopCount
  simp only [Int.ofNat_eq_coe]
  omega

example : handle_call_tool
    ⟨some ⟨fun _ => Except.ok 1, fun _ => [⟨"f", "u", "m", "3", "T100", some "hello"⟩]⟩,
      fun _ => Except.error "ENOENT"⟩
    "search_filesystem" [("query", PyVal.str "q")]
  = [ToolResponse.search "q" 1 1
      [⟨"f", "u", "m", "3", "T100", "1970-01-01 00:01:40", some "hello"⟩]] := by decide

/-! Concrete fixtures used by witnesses and counterexamples. -/

/-- Raw hit with an abstract attribute and a parsable mtime token. -/
def docHello : RawDoc := ⟨"f", "u", "m", "3", "T100", some "hello"⟩

/-- Filesystem with a single readable file at `/tmp/x.txt`. -/
def fsHello : String → Except String String :=
  fun p => if p = "/tmp/x.txt" then Except.ok "hello" else Except.error "ENOENT"

/-- Engine reporting one hit and delivering it. -/
def engOne : Engine := ⟨fun _ => Except.ok 1, fun _ => [docHello]⟩

/-- Under-delivering engine: reports two hits for every expression but
can deliver only one before exhaustion. -/
def engShort : Engine := ⟨fun _ => Except.ok 2, fun _ => [docHello]⟩

/-! Evaluation lemmas for the dispatcher on fixed operation names. -/

theorem handle_some_ok (e : Engine) (fs : String → Except String String)
    (name : String) (args : Args) (r : ToolResponse)
    (h : dispatch e fs name args = Except.ok r) :
    handle_call_tool ⟨some e, fs⟩ name args = [r] := by
  have h0 : handle_call_tool ⟨some e, fs⟩ name args
      = match dispatch e fs name args with
        | Except.ok r2 => [r2]
        | Except.error m => [ToolResponse.text ("Error executing search: " ++ m)] := rfl
  rw [h0, h]

theorem handle_some_err (e : Engine) (fs : String → Except String String)
    (name : String) (args : Args) (m : String)
    (h : dispatch e fs name args = Except.error m) :
    handle_call_tool ⟨some e, fs⟩ name args
      = [ToolResponse.text ("Error executing search: " ++ m)] := by
  have h0 : handle_call_tool ⟨some e, fs⟩ name args
      = match dispatch e fs name args with
        | Except.ok r2 => [r2]
        | Except.error m2 => [ToolResponse.text ("Error executing search: " ++ m2)] := rfl
  rw [h0, h]

theorem loopCount_lit20 (n : Nat) : loopCount 20 n = min 20 n := loopCount_ofNat 20 n

theorem searchFilesystem_eval (e : Engine) (q : String) (maxr : Nat) :
    searchFilesystem e [("query", PyVal.str q), ("max_results", PyVal.int (Int.ofNat maxr))]
      = match e.execRes q with
        | Except.error m => Except.error m
        | Except.ok nres =>
          match fetchLoop true (min maxr nres) (e.hits q) with
          | Except.error m => Except.error m
          | Except.ok rs => Except.ok (ToolResponse.search q nres rs.length rs) := by
  unfold searchFilesystem
  simp only [show Args.getReq [("query", PyVal.str q),
      ("max_results", PyVal.int (Int.ofNat maxr))] "query" = Except.ok (PyVal.str q) from rfl,
    show asStr (PyVal.str q) = Except.ok q from rfl,
    show asMinInt (Args.getD [("query", PyVal.str q),
      ("max_results", PyVal.int (Int.ofNat maxr))] "max_results" (PyVal.int 20))
      = Except.ok (Int.ofNat maxr) from rfl,
    show (Args.getD [("query", PyVal.str q),
      ("max_results", PyVal.int (Int.ofNat maxr))] "include_preview" (PyVal.bool true)).truthy
      = true from rfl,
    loopCount_ofNat]

theorem searchByDate_eval (e : Engine) (q : String) :
    searchByDate e [("query", PyVal.str q)]
      = match e.execRes q with
        | Except.error m => Except.error m
        | Except.ok nres =>
          match fetchLoop true (min 20 nres) (e.hits q) with
          | Except.error m => Except.error m
          | Except.ok rs => Except.ok (ToolResponse.search q nres rs.length rs) := by
  unfold searchByDate
  simp only [show Args.getReq [("query", PyVal.str q)] "query"
      = Except.ok (PyVal.str q) from rfl,
    show asStr (PyVal.str q) = Except.ok q from rfl,
    show Args.get? [("query", PyVal.str q)] "start_date" = none from rfl,
    show Args.get? [("query", PyVal.str q)] "end_date" = none from rfl,
    show dateFilter none none = "" from rfl,
    string_append_nil,
    show asMinInt (Args.getD [("query", PyVal.str q)] "max_results" (PyVal.int 20))
      = Except.ok 20 from rfl,
    loopCount_lit20]

theorem searchByFiletype_eval (e : Engine) (q ft : String) :
    searchByFiletype e [("query", PyVal.str q), ("filetype", PyVal.str ft)]
      = match e.execRes (q ++ " mime:" ++ ft) with
        | Except.error m => Except.error m
        | Except.ok nres =>
          match fetchLoop true (min 20 nres) (e.hits (q ++ " mime:" ++ ft)) with
          | Except.error m => Except.error m
          | Except.ok rs =>
            Except.ok (ToolResponse.search (q ++ " mime:" ++ ft) nres rs.length rs) := by
  unfold searchByFiletype
  simp only [show Args.getReq [("query", PyVal.str q), ("filetype", PyVal.str ft)] "query"
      = Except.ok (PyVal.str q) from rfl,
    show Args.getReq [("query", PyVal.str q), ("filetype", PyVal.str ft)] "filetype"
      = Except.ok (PyVal.str ft) from rfl,
    show PyVal.toStr (PyVal.str q) = q from rfl,
    show PyVal.toStr (PyVal.str ft) = ft from rfl,
    show asMinInt (Args.getD [("query", PyVal.str q), ("filetype", PyVal.str ft)]
      "max_results" (PyVal.int 20)) = Except.ok 20 from rfl,
    loopCount_lit20]

theorem dispatch_search_filesystem (e : Engine) (fs : String → Except String String)
    (args : Args) : dispatch e fs "search_filesystem" args = searchFilesystem e args := rfl

theorem dispatch_search_by_date (e : Engine) (fs : String → Except String String)
    (args : Args) : dispatch e fs "search_by_date" args = searchByDate e args := rfl

theorem dispatch_search_by_filetype (e : Engine) (fs : String → Except String String)
    (args : Args) : dispatch e fs "search_by_filetype" args = searchByFiletype e args := rfl

theorem dispatch_get_document_content (e : Engine) (fs : String → Except String String)
    (args : Args) : dispatch e fs "get_document_content" args = getDocumentContent fs args := rfl

/-! Claim theorems. -/

/-- C9: for every server state (connection present or absent), every
operation name and every argument object, the dispatcher returns exactly
one content item; no exception escapes to the transport (the model is a
total function because the catch-all wraps every failure). -/
theorem dispatcher_single_item (st : ServerState) (name : String) (args : Args) :
    (handle_call_tool st name args).length = 1 := by
  rcases st with ⟨db, fs⟩
  cases db with
  | none => rfl
  | some e =>
    show (match dispatch e fs name args with
          | Except.ok r => [r]
          | Except.error m => [ToolResponse.text ("Error executing search: " ++ m)]).length = 1
    cases dispatch e fs name args <;> rfl

/-- C10: the `include_preview` flag of `format_doc_result` affects only
the preview field: the result with the flag off equals the result with
the flag on with its preview erased, so filename, url, mimetype, size,
mtime and mtime_readable agree, and so does success or failure. -/
theorem preview_flag_frame (doc : RawDoc) :
    format_doc_result doc false
      = (format_doc_result doc true).map (fun r => { r with preview := none }) := by
  cases hp : pyInt (pyDrop doc.mtime 1) with
  | none =>
    rw [format_error_of_no_parse doc false hp, format_error_of_no_parse doc true hp]
    rfl
  | some t =>
    unfold format_doc_result
    simp only [hp]
    cases fromtimestampOk t with
    | false => rfl
    | true =>
      cases doc.abstract with
      | none => rfl
      | some a => rfl

/-- C8: preview truncation is a prefix cut of the first 300 characters,
its output length is at most 300, it is the identity on inputs of length
at most 300, and it is idempotent. -/
theorem preview_truncation_props (s : String) :
    (truncPreview s).length ≤ 300
    ∧ (s.length ≤ 300 → truncPreview s = s)
    ∧ truncPreview (truncPreview s) = truncPreview s
    ∧ (truncPreview s).data = s.data.take 300 := by
  refine ⟨?_, ?_, ?_, rfl⟩
  · show (s.data.take 300).length ≤ 300
    rw [List.length_take]
    omega
  · intro h
    show (⟨s.data.take 300⟩ : String) = s
    rw [List.take_of_length_le h]
  · show (⟨(s.data.take 300).take 300⟩ : String) = (⟨s.data.take 300⟩ : String)
    rw [List.take_take, min_self]

/-- C8 witness: the truncation properties at the concrete preview
string `hi`. -/
theorem preview_truncation_props_witness :
    truncPreview "hi" = "hi" ∧ (truncPreview "hi").length ≤ 300 := by
  have h := preview_truncation_props "hi"
  exact ⟨h.2.1 (by decide), h.1⟩

/-- Success projection of an `Except` result. -/
def resultOk {ε α : Type} : Except ε α → Option α
  | Except.ok a => some a
  | Except.error _ => none

/-- C4 counterexample: the raw mtime token `Qxy` (marker byte followed by
a non-decimal tail) makes `format_doc_result` raise instead of falling
back, refuting that computing the readable timestamp never raises. -/
theorem mtime_decode_cx :
    resultOk (format_doc_result ⟨"f", "u", "m", "0", "Qxy", none⟩ true) = none := rfl

theorem letter_not_space (c : Char) (h : isAsciiLetter c = true) :
    isPySpace c = false := by
  rw [← Bool.not_eq_true]
  intro hsp
  simp only [isAsciiLetter, Bool.or_eq_true, Bool.and_eq_true, decide_eq_true_eq] at h
  simp only [isPySpace, Bool.or_eq_true, decide_eq_true_eq] at hsp
  omega

theorem letter_not_digit (c : Char) (h : isAsciiLetter c = true) :
    isDigitChar c = false := by
  rw [← Bool.not_eq_true]
  intro hd
  simp only [isAsciiLetter, Bool.or_eq_true, Bool.and_eq_true, decide_eq_true_eq] at h
  simp only [isDigitChar, Bool.and_eq_true, decide_eq_true_eq] at hd
  omega

theorem letter_toNat_bounds (c : Char) (h : isAsciiLetter c = true) :
    65 ≤ c.toNat ∧ c.toNat ≤ 122 := by
  simp only [isAsciiLetter, Bool.or_eq_true, Bool.and_eq_true, decide_eq_true_eq] at h
  omega

theorem pyIntDigits_letter (c : Char) (cs : List Char) (h : isAsciiLetter c = true) :
    pyIntDigits (c :: cs) = none := by
  unfold pyIntDigits
  simp [letter_not_digit c h]

theorem dropWhile_all_false (p : Char → Bool) (l : List Char)
    (h : ∀ c ∈ l, p c = false) : l.dropWhile p = l := by
  cases l with
  | nil => rfl
  | cons c cs =>
    rw [List.dropWhile_cons, h c (List.mem_cons_self c cs)]
    simp

theorem stripPySpace_of_letters (l : List Char)
    (h : ∀ c ∈ l, isAsciiLetter c = true) : stripPySpace l = l := by
  have h1 : ∀ c ∈ l, isPySpace c = false := fun c hc => letter_not_space c (h c hc)
  unfold stripPySpace
  rw [dropWhile_all_false isPySpace l h1,
    dropWhile_all_false isPySpace l.reverse (fun c hc => h1 c (List.mem_reverse.mp hc)),
    List.reverse_reverse]

theorem pyInt_none_of_letters (s : String) (h : ∀ c ∈ s.data, isAsciiLetter c = true) :
    pyInt s = none := by
  unfold pyInt
  rw [stripPySpace_of_letters s.data h]
  cases hd : s.data with
  | nil => rfl
  | cons c cs =>
    have hc : isAsciiLetter c = true := h c (by rw [hd]; exact List.mem_cons_self c cs)
    obtain ⟨hb1, hb2⟩ := letter_toNat_bounds c hc
    simp only [pyIntCore]
    rw [if_neg (by omega), if_neg (by omega), pyIntDigits_letter c cs hc]
    rfl

/-- C4 amended: computing the readable timestamp does raise for some
token values, in two ways the source exhibits: a token whose tail is
alphabetic fails integer decoding and raises, and a token whose tail
decodes to an epoch at least two days outside the year 1..9999 range of
the conversion raises in the conversion itself; and a normalization
failure is not handled per-hit - it aborts the fetch loop, reaching the
dispatcher catch-all, with no fallback to displaying the raw token. -/
theorem mtime_decode_raises (doc : RawDoc) (ip : Bool) (ds : List RawDoc) (k : Nat) :
    ((∀ c ∈ (pyDrop doc.mtime 1).data, isAsciiLetter c = true) →
      format_doc_result doc ip
        = Except.error ("invalid literal for int: " ++ doc.mtime))
    ∧ (∀ t : Int, pyInt (pyDrop doc.mtime 1) = some t →
        t < -62135769600 ∨ 253402473599 < t →
        format_doc_result doc ip
          = Except.error ("timestamp out of range: " ++ doc.mtime))
    ∧ (∀ m : String, format_doc_result doc ip = Except.error m →
        fetchLoop ip (k + 1) (doc :: ds) = Except.error m) := by
  refine ⟨?_, ?_, ?_⟩
  · intro h
    exact format_error_of_no_parse doc ip (pyInt_none_of_letters _ h)
  · intro t hp hrange
    unfold format_doc_result
    simp only [hp]
    rw [if_neg (show ¬ fromtimestampOk t = true by
      intro hok
      simp only [fromtimestampOk, Bool.and_eq_true, decide_eq_true_eq] at hok
      omega)]
  · intro m hm
    unfold fetchLoop
    rw [hm]

/-- C4 witness: the decodable but out-of-range token `X999999999999`
(CPython int succeeds on the tail, fromtimestamp raises) makes
normalization raise, and the raise aborts a one-iteration fetch loop. -/
theorem mtime_decode_raises_witness :
    format_doc_result ⟨"f", "u", "m", "0", "X999999999999", none⟩ true
      = Except.error "timestamp out of range: X999999999999"
    ∧ fetchLoop true 1 [⟨"f", "u", "m", "0", "X999999999999", none⟩]
      = Except.error "timestamp out of range: X999999999999" := by
  have h := mtime_decode_raises ⟨"f", "u", "m", "0", "X999999999999", none⟩ true [] 0
  have hs : ("timestamp out of range: " ++ "X999999999999" : String)
      = "timestamp out of range: X999999999999" := by decide
  have h1 := h.2.1 999999999999 rfl (Or.inr (by omega))
  rw [hs] at h1
  exact ⟨h1, h.2.2 _ h1⟩

/-- C1 counterexample: with the connection handle absent, an invocation
of `get_document_content` on a readable file returns the fixed
unavailable text instead of a ContentEnvelope, because the `db is None`
guard runs before any dispatch. -/
theorem conn_unavailable_cx :
    handle_call_tool ⟨none, fsHello⟩ "get_document_content"
        [("url", PyVal.str "file:///tmp/x.txt")]
      = [ToolResponse.text unavailableText]
    ∧ fsHello (stripFileUrl "file:///tmp/x.txt") = Except.ok "hello" := by
  exact ⟨rfl, rfl⟩

/-- C1 amended: with the connection handle absent, every operation,
including `get_document_content` and unknown names, short-circuits to the
fixed unavailable text. -/
theorem conn_unavailable_all_ops (fs : String → Except String String)
    (name : String) (args : Args) :
    handle_call_tool ⟨none, fs⟩ name args = [ToolResponse.text unavailableText] := rfl

/-- C5 counterexample: with the connection handle absent, an unknown
operation name yields the fixed unavailable text, not an unknown-operation
message, refuting that the unknown-name short-circuit happens for every
state of the connection handle. -/
theorem unknown_tool_cx :
    handle_call_tool ⟨none, fsHello⟩ "frobnicate" []
        = [ToolResponse.text unavailableText]
    ∧ unavailableText ≠ "Unknown tool: frobnicate" := by
  exact ⟨rfl, by decide⟩

/-- C5 amended: with the connection handle present, an invocation whose
name matches none of the five registered operations returns a single
text item carrying the unknown-tool message, for every engine (the result
does not depend on the engine, so no engine call occurs); with the handle
absent the unavailable text is returned instead. -/
theorem unknown_tool_dispatch (e : Engine) (fs : String → Except String String)
    (name : String) (args : Args)
    (h1 : name ≠ "search_filesystem") (h2 : name ≠ "search_by_date")
    (h3 : name ≠ "search_by_filetype") (h4 : name ≠ "get_document_content")
    (h5 : name ≠ "list_recent_files") :
    handle_call_tool ⟨some e, fs⟩ name args
      = [ToolResponse.text ("Unknown tool: " ++ name)] := by
  have hd : dispatch e fs name args
      = Except.ok (ToolResponse.text ("Unknown tool: " ++ name)) := by
    unfold dispatch
    rw [if_neg h1, if_neg h2, if_neg h3, if_neg h4, if_neg h5]
  exact handle_some_ok e fs name args _ hd

/-- C5 witness: the unknown-tool response at the concrete name
`frobnicate` with a live engine. -/
theorem unknown_tool_dispatch_witness :
    handle_call_tool ⟨some engOne, fsHello⟩ "frobnicate" []
      = [ToolResponse.text "Unknown tool: frobnicate"] := by
  have h := unknown_tool_dispatch engOne fsHello "frobnicate" []
    (by decide) (by decide) (by decide) (by decide) (by decide)
  exact h.trans (by decide)

theorem string_append_assoc (a b c : String) : a ++ b ++ c = a ++ (b ++ c) := by
  cases a with
  | mk da =>
    cases b with
    | mk db2 =>
      cases c with
      | mk dc =>
        show String.mk (da ++ db2 ++ dc) = String.mk (da ++ (db2 ++ dc))
        rw [List.append_assoc]

/-- Date string in `YYYY-MM-DD` shape: four digits, dash, two digits,
dash, two digits. -/
def isYMD (s : String) : Bool :=
  match s.data with
  | [y1, y2, y3, y4, c1, m1, m2, c2, d1, d2] =>
    y1.isDigit && y2.isDigit && y3.isDigit && y4.isDigit && c1 == '-' &&
    m1.isDigit && m2.isDigit && c2 == '-' && d1.isDigit && d2.isDigit
  | _ => false

theorem truthy_of_isYMD (s : String) (h : isYMD s = true) :
    (PyVal.str s).truthy = true := by
  cases s with
  | mk data =>
    cases data with
    | nil => exact absurd h (by decide)
    | cons c cs => rfl

/-- C6: for a free-text query and optional `YYYY-MM-DD` bounds, the
`search_by_date` query builder emits exactly the four specified forms:
both bounds give `q date:s/e`, only a start gives `q date:s/`, only an
end gives `q date:/e`, and neither leaves the query unchanged. -/
theorem date_clause_four_forms (q : String) (sd ed : Option String)
    (hs : ∀ s, sd = some s → isYMD s = true)
    (he : ∀ s, ed = some s → isYMD s = true) :
    q ++ dateFilter (sd.map PyVal.str) (ed.map PyVal.str)
      = match sd, ed with
        | some s, some e2 => q ++ " date:" ++ s ++ "/" ++ e2
        | some s, none => q ++ " date:" ++ s ++ "/"
        | none, some e2 => q ++ " date:/" ++ e2
        | none, none => q := by
  cases sd with
  | none =>
    cases ed with
    | none => simp [dateFilter, string_append_nil]
    | some e2 =>
      have ht := truthy_of_isYMD e2 (he e2 rfl)
      simp [dateFilter, ht, PyVal.toStr, string_append_assoc]
  | some s =>
    have hts := truthy_of_isYMD s (hs s rfl)
    cases ed with
    | none => simp [dateFilter, hts, PyVal.toStr, string_append_assoc]
    | some e2 =>
      have hte := truthy_of_isYMD e2 (he e2 rfl)
      simp [dateFilter, hts, hte, PyVal.toStr, string_append_assoc]

/-- C6 witness: query `todo` with start `2025-01-01` and no end emits
`todo date:2025-01-01/`. -/
theorem date_clause_four_forms_witness :
    "todo" ++ dateFilter (some (PyVal.str "2025-01-01")) none
      = "todo date:2025-01-01/" := by
  have h := date_clause_four_forms "todo" (some "2025-01-01") none
    (fun s hs => by cases hs; decide) (fun s hs => nomatch hs)
  exact h.trans (by decide)

/-- C7: a `get_document_content` invocation on a readable file returns
the ContentEnvelope whose content is the first `min(L, 10000)` characters
of the decoded content (a prefix cut), whose truncated flag is true
exactly when `L > 10000`, and whose path is the url with a literal
`file://` prefix stripped when present and taken verbatim otherwise. -/
theorem get_content_spec (e : Engine) (fs : String → Except String String)
    (url content : String)
    (hf : fs (stripFileUrl url) = Except.ok content) :
    handle_call_tool ⟨some e, fs⟩ "get_document_content" [("url", PyVal.str url)]
      = [ToolResponse.content url (stripFileUrl url) (pyTake content 10000)
          (decide (10000 < content.length))]
    ∧ (pyTake content 10000).length = min content.length 10000
    ∧ (decide (10000 < content.length) = true ↔ 10000 < content.length)
    ∧ (pyStartsWith url "file://" = true → stripFileUrl url = pyDrop url 7)
    ∧ (pyStartsWith url "file://" = false → stripFileUrl url = url) := by
  refine ⟨?_, ?_, decide_eq_true_iff, ?_, ?_⟩
  · have hg : getDocumentContent fs [("url", PyVal.str url)]
        = match fs (stripFileUrl url) with
          | Except.error msg => Except.ok (ToolResponse.text ("Error reading file: " ++ msg))
          | Except.ok c =>
            Except.ok (ToolResponse.content url (stripFileUrl url) (pyTake c 10000)
              (decide (10000 < c.length))) := rfl
    rw [hf] at hg
    exact handle_some_ok e fs "get_document_content" [("url", PyVal.str url)] _
      ((dispatch_get_document_content e fs _).trans hg)
  · cases content with
    | mk data =>
      show (data.take 10000).length = min (String.mk data).length 10000
      rw [List.length_take, Nat.min_comm]
      rfl
  · intro h
    unfold stripFileUrl
    rw [if_pos h]
  · intro h
    unfold stripFileUrl
    rw [if_neg (by rw [h]; exact Bool.false_ne_true)]

/-- C7 witness: url `file:///tmp/x.txt` over a file containing `hello`
returns the envelope with content `hello` and truncated `false`. -/
theorem get_content_spec_witness :
    handle_call_tool ⟨some engOne, fsHello⟩ "get_document_content"
        [("url", PyVal.str "file:///tmp/x.txt")]
      = [ToolResponse.content "file:///tmp/x.txt" "/tmp/x.txt" "hello" false] := by
  have h := (get_content_spec engOne fsHello "file:///tmp/x.txt" "hello" rfl).1
  exact h.trans (by decide)

/-- C2 counterexample: a `search_by_date` invocation over a hit that has
an abstract returns a result carrying a preview field (the handler calls
`format_doc_result` with its default `include_preview=True`), refuting
that preview is never included for the date and filetype operations. -/
theorem date_search_preview_cx :
    handle_call_tool ⟨some engOne, fsHello⟩ "search_by_date" [("query", PyVal.str "q")]
      = [ToolResponse.search "q" 1 1
          [⟨"f", "u", "m", "3", "T100", "1970-01-01 00:01:40", some "hello"⟩]]
    ∧ DocResult.preview ⟨"f", "u", "m", "3", "T100", "1970-01-01 00:01:40", some "hello"⟩
        ≠ none := ⟨by decide, by decide⟩

/-- C2 amended: both `search_by_date` and `search_by_filetype` normalize
with the default preview inclusion of `format_doc_result`: each returned
result carries a preview exactly when its raw hit has an abstract
attribute, truncated to the first 300 characters. -/
theorem default_preview_included (e : Engine) (fs : String → Except String String)
    (q ft : String) (nd nf : Nat) (rsd rsf : List DocResult)
    (hed : e.execRes q = Except.ok nd)
    (hfd : fetchLoop true (min 20 nd) (e.hits q) = Except.ok rsd)
    (hef : e.execRes (q ++ " mime:" ++ ft) = Except.ok nf)
    (hff : fetchLoop true (min 20 nf) (e.hits (q ++ " mime:" ++ ft)) = Except.ok rsf) :
    (handle_call_tool ⟨some e, fs⟩ "search_by_date" [("query", PyVal.str q)]
        = [ToolResponse.search q nd rsd.length rsd]
      ∧ ∀ (i : Nat) (h1 : i < rsd.length) (h2 : i < (e.hits q).length),
          (rsd.get ⟨i, h1⟩).preview = ((e.hits q).get ⟨i, h2⟩).abstract.map truncPreview)
    ∧ (handle_call_tool ⟨some e, fs⟩ "search_by_filetype"
          [("query", PyVal.str q), ("filetype", PyVal.str ft)]
        = [ToolResponse.search (q ++ " mime:" ++ ft) nf rsf.length rsf]
      ∧ ∀ (i : Nat) (h1 : i < rsf.length) (h2 : i < (e.hits (q ++ " mime:" ++ ft)).length),
          (rsf.get ⟨i, h1⟩).preview
            = ((e.hits (q ++ " mime:" ++ ft)).get ⟨i, h2⟩).abstract.map truncPreview) := by
  constructor
  · constructor
    · have hd := (dispatch_search_by_date e fs [("query", PyVal.str q)]).trans
        (searchByDate_eval e q)
      simp only [hed, hfd] at hd
      exact handle_some_ok e fs _ _ _ hd
    · exact fun i h1 h2 => fetchLoop_preview_true _ _ _ hfd i h1 h2
  · constructor
    · have hd := (dispatch_search_by_filetype e fs
          [("query", PyVal.str q), ("filetype", PyVal.str ft)]).trans
        (searchByFiletype_eval e q ft)
      simp only [hef, hff] at hd
      exact handle_some_ok e fs _ _ _ hd
    · exact fun i h1 h2 => fetchLoop_preview_true _ _ _ hff i h1 h2

/-- C2 witness: a concrete `search_by_filetype` invocation whose single
returned result carries the preview of its raw hit. -/
theorem default_preview_included_witness :
    handle_call_tool ⟨some engOne, fsHello⟩ "search_by_filetype"
        [("query", PyVal.str "q"), ("filetype", PyVal.str "pdf")]
      = [ToolResponse.search "q mime:pdf" 1 1
          [⟨"f", "u", "m", "3", "T100", "1970-01-01 00:01:40", some "hello"⟩]] := by
  have h := (default_preview_included engOne fsHello "q" "pdf" 1 1
    [⟨"f", "u", "m", "3", "T100", "1970-01-01 00:01:40", some "hello"⟩]
    [⟨"f", "u", "m", "3", "T100", "1970-01-01 00:01:40", some "hello"⟩]
    rfl rfl rfl rfl).2.1
  exact h.trans (by decide)

/-- C3 counterexample: an engine that reports two hits but can deliver
only one, with `maxResults = 2`, makes the invocation degrade to the
catch-all error text instead of returning `returnedResults = 1`, refuting
that engine under-delivery is tolerated. -/
theorem under_delivery_cx :
    handle_call_tool ⟨some engShort, fsHello⟩ "search_filesystem"
        [("query", PyVal.str "q"), ("max_results", PyVal.int 2)]
      = [ToolResponse.text "Error executing search: fetch exhausted"] := by decide

/-- C3 amended: for an engine whose deliverable hits all normalize
successfully (mtime tails that decode to epochs safely inside the
timestamp-conversion range, the `mtimeSafe` hypothesis), the fetch loop
runs exactly `min(maxResults, totalResults)` iterations; when the engine
delivers at least that many hits the envelope reports
`returnedResults = min(maxResults, totalResults)` with a results list of
exactly that length, and when the engine exhausts earlier the whole
invocation returns the dispatcher-level error text instead of a partial
envelope. -/
theorem fetch_loop_min_or_error (e : Engine) (fs : String → Except String String)
    (q : String) (maxr nres : Nat)
    (hex : e.execRes q = Except.ok nres)
    (hsafe : ∀ d ∈ e.hits q, mtimeSafe d = true) :
    (min maxr nres ≤ (e.hits q).length →
      ∃ rs, handle_call_tool ⟨some e, fs⟩ "search_filesystem"
          [("query", PyVal.str q), ("max_results", PyVal.int (Int.ofNat maxr))]
        = [ToolResponse.search q nres rs.length rs] ∧ rs.length = min maxr nres)
    ∧ ((e.hits q).length < min maxr nres →
      handle_call_tool ⟨some e, fs⟩ "search_filesystem"
          [("query", PyVal.str q), ("max_results", PyVal.int (Int.ofNat maxr))]
        = [ToolResponse.text ("Error executing search: " ++ "fetch exhausted")]) := by
  have hmt : ∀ d ∈ e.hits q, mtimeOk d = true :=
    fun d hd => mtimeOk_of_safe d (hsafe d hd)
  constructor
  · intro hle
    obtain ⟨rs, hrs, hlen⟩ := fetchLoop_ok_of_enough true (min maxr nres) (e.hits q) hmt hle
    have hd := (dispatch_search_filesystem e fs
        [("query", PyVal.str q), ("max_results", PyVal.int (Int.ofNat maxr))]).trans
      (searchFilesystem_eval e q maxr)
    simp only [hex, hrs] at hd
    exact ⟨rs, handle_some_ok e fs _ _ _ hd, hlen⟩
  · intro hlt
    have hrs := fetchLoop_exhausts true (min maxr nres) (e.hits q) hmt hlt
    have hd := (dispatch_search_filesystem e fs
        [("query", PyVal.str q), ("max_results", PyVal.int (Int.ofNat maxr))]).trans
      (searchFilesystem_eval e q maxr)
    simp only [hex, hrs] at hd
    exact handle_some_err e fs _ _ _ hd

/-- C3 witness: the under-delivery branch at a concrete engine reporting
two hits while delivering one, with `maxResults = 3`. -/
theorem fetch_loop_min_or_error_witness :
    handle_call_tool ⟨some engShort, fsHello⟩ "search_filesystem"
        [("query", PyVal.str "q"), ("max_results", PyVal.int (Int.ofNat 3))]
      = [ToolResponse.text ("Error executing search: " ++ "fetch exhausted")] :=
  (fetch_loop_min_or_error engShort fsHello "q" 3 2 rfl (by decide)).2 (by decide)
